import Mathlib

/- Shallow embedding of the sectors_guard validation engine:
   `app/validators/data_validator.py` and `app/validators/idx_financial_validator.py`.
   Numeric values are modelled as exact rationals; pandas null values (None / NaN)
   are modelled as `Option` none; a DataFrame is a list of rows plus a record of
   column-presence flags (pandas distinguishes an absent column from a null cell). -/

/-- Severity tier of an anomaly record (the `severity` field of the source dicts). -/
inductive Severity where
  | info
  | warning
  | error
deriving DecidableEq

/-- Overall status of a validation run (the `status` field of the results dict). -/
inductive Status where
  | success
  | warning
  | error
deriving DecidableEq

/-- The `type` tag attached to each anomaly dict in the source. -/
inductive ATag where
  | identity_violation
  | data_missing
  | ratio_out_of_range
  | extreme_annual_change
  | extreme_quarterly_change
  | business_rule_violation
  | missing_required_columns
  | validation_error
  | truncated_results
  | price_data_inconsistency
  | duplicate_transaction
deriving DecidableEq

/-- An anomaly record. Reporting-only payload fields of the source dicts
    (free-form `message`, `date`, raw `difference`, affected-period lists) are not
    modelled; `diff_pct` / `value` / `origCount` are kept because claims refer to
    them. Because `message` strings are unbounded, the serialized character size of
    a record is supplied to the persistence model as an oracle `sz : Anomaly → Nat`. -/
structure Anomaly where
  tag : ATag
  severity : Severity
  symbol : Option String
  diff_pct : Option ℚ
  value : Option ℚ
  origCount : Option Nat
deriving DecidableEq

/-- Build an anomaly record with no truncation counter. -/
def mkAnom (t : ATag) (sev : Severity) (sym : Option String) (dp : Option ℚ)
    (v : Option ℚ) : Anomaly :=
  ⟨t, sev, sym, dp, v, none⟩

/-- One row of the `idx_combine_financials_annual` / `_quarterly` tables.
    `period` is the sort key used by the extreme-change detector (the extracted
    `year` for the annual table, the `date` ordinal for the quarterly table). -/
structure FinRow where
  symbol : String
  period : Int
  total_assets : Option ℚ
  total_liabilities : Option ℚ
  total_equity : Option ℚ
  gross_loan : Option ℚ
  allowance_for_loans : Option ℚ
  net_loan : Option ℚ
  earnings_before_tax : Option ℚ
  earnings : Option ℚ
  tax : Option ℚ
  minorities : Option ℚ
  net_operating_cash_flow : Option ℚ
  net_investing_cash_flow : Option ℚ
  net_financing_cash_flow : Option ℚ
  net_cash_flow : Option ℚ
  free_cash_flow : Option ℚ
  capital_expenditure : Option ℚ
  total_revenue : Option ℚ
  net_interest_income : Option ℚ
  non_interest_income : Option ℚ
  total_deposit : Option ℚ
  current_account : Option ℚ
  savings_account : Option ℚ
  time_deposit : Option ℚ
  total_capital : Option ℚ
  total_risk_weighted_asset : Option ℚ
  operating_expense : Option ℚ
  revenue : Option ℚ
deriving DecidableEq

/-- Column-presence flags of the fetched DataFrame (`c in df.columns` tests). -/
structure Cols where
  date : Bool
  symbol : Bool
  total_assets : Bool
  total_liabilities : Bool
  total_equity : Bool
  gross_loan : Bool
  allowance_for_loans : Bool
  net_loan : Bool
  earnings_before_tax : Bool
  earnings : Bool
  tax : Bool
  minorities : Bool
  net_operating_cash_flow : Bool
  net_investing_cash_flow : Bool
  net_financing_cash_flow : Bool
  net_cash_flow : Bool
  free_cash_flow : Bool
  capital_expenditure : Bool
  total_revenue : Bool
  net_interest_income : Bool
  non_interest_income : Bool
  total_deposit : Bool
  current_account : Bool
  savings_account : Bool
  time_deposit : Bool
  total_capital : Bool
  total_risk_weighted_asset : Bool
  operating_expense : Bool
  revenue : Bool
deriving DecidableEq

/-- A DataFrame with every column present. -/
def colsAll : Cols :=
  ⟨true, true, true, true, true, true, true, true, true, true, true, true, true, true,
   true, true, true, true, true, true, true, true, true, true, true, true, true, true, true⟩

/-- `row.get(c)`: a cell read that yields null when the column itself is absent. -/
def rowGet (present : Bool) (v : Option ℚ) : Option ℚ :=
  if present then v else none

/-- `IDXFinancialValidator._tolerance`: per-row materiality tolerance combining a
    relative part and an absolute floor (`np.maximum(base.abs() * rel, abs_tol)`). -/
def tolerance (base rel absTol : ℚ) : ℚ :=
  max (|base| * rel) absTol

/-- Islamic banks excluded from the assets identity and the ratio checks. -/
def islamicBanks : List String :=
  ["BANK.JK", "BRIS.JK", "BSIM.JK", "PNBS.JK", "BTPS.JK"]

/-- Severity tiering of the assets = liabilities + equity identity by deviation
    percentage, as the spec words it: more than 11% is an error, more than 5% a
    warning, anything else info (both comparisons strict). -/
def identityTier (p : ℚ) : Severity :=
  if p > 11 then Severity.error else if p > 5 then Severity.warning else Severity.info

/-- Identity 1 of `_add_identity_anomalies`: assets = liabilities + equity,
    Islamic banks excluded, evaluated only on rows with all three cells non-null,
    flagged when the difference exceeds `tolerance(assets, 0.1, 1e9)`, with the
    severity tiered on the deviation percentage relative to total assets. -/
def assetsIdentityAnomalies (cols : Cols) (rows : List FinRow) : List Anomaly :=
  if cols.total_assets && cols.total_liabilities && cols.total_equity then
    (rows.filter (fun r => !(cols.symbol && islamicBanks.contains r.symbol))).filterMap
      (fun r =>
        match r.total_assets, r.total_liabilities, r.total_equity with
        | some ta, some tl, some te =>
          if |ta - (tl + te)| > tolerance ta (1/10) 1000000000 then
            let diff := ta - (tl + te)
            let base : ℚ := if ta = 0 then 1 else ta
            let diffPct := |diff| / |base| * 100
            let sev :=
              if diffPct > 11 then Severity.error
              else if diffPct > 5 then Severity.warning
              else Severity.info
            some (mkAnom ATag.identity_violation sev (some r.symbol) (some diffPct) none)
          else none
        | _, _, _ => none)
  else []

/-- Identity 2: net loan = gross loan − |allowance|, tolerance (2%, 1e9), warning. -/
def netLoanIdentityAnomalies (cols : Cols) (rows : List FinRow) : List Anomaly :=
  if cols.gross_loan && cols.allowance_for_loans && cols.net_loan then
    rows.filterMap (fun r =>
      match r.gross_loan, r.allowance_for_loans, r.net_loan with
      | some gl, some al, some nl =>
        let expected := gl - |al|
        if |nl - expected| > tolerance expected (1/50) 1000000000 then
          let base : ℚ := if expected = 0 then 1 else |expected|
          some (mkAnom ATag.identity_violation Severity.warning (some r.symbol)
            (some (|nl - expected| / base * 100)) none)
        else none
      | _, _, _ => none)
  else []

/-- Identity 3: EBT ≈ earnings + tax (+ minorities where that column exists; rows
    with a null minorities cell are then dropped), tolerance (5%, 1e9), warning. -/
def ebtIdentityAnomalies (cols : Cols) (rows : List FinRow) : List Anomaly :=
  if cols.earnings_before_tax && cols.earnings && cols.tax then
    rows.filterMap (fun r =>
      match r.earnings_before_tax, r.earnings, r.tax with
      | some ebt, some e, some t =>
        if !cols.minorities || r.minorities.isSome then
          let opt := e + t
          let opt2 := opt + (if cols.minorities then r.minorities.getD 0 else 0)
          let tol := tolerance ebt (1/20) 1000000000
          if |ebt - opt| > tol && |ebt - opt2| > tol then
            let base : ℚ := if ebt = 0 then 1 else |ebt|
            some (mkAnom ATag.identity_violation Severity.warning (some r.symbol)
              (some (|ebt - opt| / base * 100)) none)
          else none
        else none
      | _, _, _ => none)
  else []

/-- Identity 4a: rows whose cash-flow components are present but whose
    `net_cash_flow` is null are reported as an informational `data_missing` record. -/
def ncfMissingAnomalies (cols : Cols) (rows : List FinRow) : List Anomaly :=
  if cols.net_operating_cash_flow && cols.net_investing_cash_flow &&
      cols.net_financing_cash_flow && cols.net_cash_flow then
    rows.filterMap (fun r =>
      if r.net_operating_cash_flow.isSome && r.net_investing_cash_flow.isSome &&
          r.net_financing_cash_flow.isSome && r.net_cash_flow.isNone then
        some (mkAnom ATag.data_missing Severity.info (some r.symbol) none none)
      else none)
  else []

/-- Identity 4b: net cash flow = CFO + CFI + CFF on fully non-null rows,
    tolerance (5%, 1e9), warning. -/
def ncfIdentityAnomalies (cols : Cols) (rows : List FinRow) : List Anomaly :=
  if cols.net_operating_cash_flow && cols.net_investing_cash_flow &&
      cols.net_financing_cash_flow && cols.net_cash_flow then
    rows.filterMap (fun r =>
      match r.net_operating_cash_flow, r.net_investing_cash_flow,
          r.net_financing_cash_flow, r.net_cash_flow with
      | some o, some i, some f, some ncf =>
        let expected := o + i + f
        if |ncf - expected| > tolerance expected (1/20) 1000000000 then
          let base : ℚ := if expected = 0 then 1 else |expected|
          some (mkAnom ATag.identity_violation Severity.warning (some r.symbol)
            (some (|ncf - expected| / base * 100)) none)
        else none
      | _, _, _, _ => none)
  else []

/-- Identity 5 walker: free cash flow = CFO − capex, skipped for sub-sector 19.
    The per-symbol company lookup is an input `lookup`; when it returns nothing the
    source keeps the `sub_sector_id` Python variable from the previous row (and
    fails with a NameError, skipping the row, when no previous value exists) —
    `prev` threads that variable. Rows whose operands are null raise and are
    skipped (`except ... pass`). Tolerance max(5% |expected|, 5e8), info. -/
def fcfGo (lookup : String → Option Int) (prev : Option Int) :
    List FinRow → List Anomaly
  | [] => []
  | r :: rest =>
    let sub := match lookup r.symbol with
      | some i => some i
      | none => prev
    match sub with
    | none => fcfGo lookup sub rest
    | some i =>
      if i = 19 then fcfGo lookup sub rest
      else
        match r.net_operating_cash_flow, r.capital_expenditure, r.free_cash_flow with
        | some o, some c, some f =>
          let expected := o - c
          (if |f - expected| > max (|expected| * (1/20)) 500000000 then
            [mkAnom ATag.identity_violation Severity.info (some r.symbol) none none]
          else []) ++ fcfGo lookup sub rest
        | _, _, _ => fcfGo lookup sub rest

/-- Identity 5: free cash flow = CFO − capex (see `fcfGo`). -/
def fcfIdentityAnomalies (cols : Cols) (lookup : String → Option Int)
    (rows : List FinRow) : List Anomaly :=
  if cols.free_cash_flow && cols.net_operating_cash_flow &&
      cols.capital_expenditure && cols.symbol then
    fcfGo lookup none rows
  else []

/-- Identity 6: total revenue ≈ net interest income + non-interest income, nulls
    coerced to 0, only where the components are material (>10% of revenue),
    tolerance (25%, 1e9), info. -/
def revenueCompositionAnomalies (cols : Cols) (rows : List FinRow) : List Anomaly :=
  if cols.total_revenue && (cols.net_interest_income || cols.non_interest_income) then
    rows.filterMap (fun r =>
      let comp := (if cols.net_interest_income then r.net_interest_income.getD 0 else 0) +
        (if cols.non_interest_income then r.non_interest_income.getD 0 else 0)
      let trev := r.total_revenue.getD 0
      if |comp| > |trev| * (1/10) && |trev - comp| > tolerance trev (1/4) 1000000000 then
        some (mkAnom ATag.identity_violation Severity.info (some r.symbol) none none)
      else none)
  else []

/-- Identity 7: total deposit = current + savings + time deposits, nulls coerced
    to 0, tolerance (3%, 1e9), info. -/
def depositsIdentityAnomalies (cols : Cols) (rows : List FinRow) : List Anomaly :=
  if cols.total_deposit && cols.current_account && cols.savings_account &&
      cols.time_deposit then
    rows.filterMap (fun r =>
      let comp := r.current_account.getD 0 + r.savings_account.getD 0 +
        r.time_deposit.getD 0
      let td := r.total_deposit.getD 0
      if |td - comp| > tolerance td (3/100) 1000000000 then
        some (mkAnom ATag.identity_violation Severity.info (some r.symbol) none none)
      else none)
  else []

/-- `IDXFinancialValidator._add_identity_anomalies`: the seven accounting
    identities, in source order. -/
def addIdentityAnomalies (cols : Cols) (lookup : String → Option Int)
    (rows : List FinRow) : List Anomaly :=
  assetsIdentityAnomalies cols rows ++
  netLoanIdentityAnomalies cols rows ++
  ebtIdentityAnomalies cols rows ++
  ncfMissingAnomalies cols rows ++
  ncfIdentityAnomalies cols rows ++
  fcfIdentityAnomalies cols lookup rows ++
  revenueCompositionAnomalies cols rows ++
  depositsIdentityAnomalies cols rows

/-- `IDXFinancialValidator._add_ratio_anomalies` for one row: the six banking
    ratio range checks; Islamic banks are skipped entirely. pandas NaN operands
    propagate to a NaN ratio whose range comparisons are false, which coincides
    with the null-operand skip modelled here. -/
def ratioAnomaliesRow (cols : Cols) (r : FinRow) : List Anomaly :=
  if islamicBanks.contains r.symbol then []
  else
    (match rowGet cols.gross_loan r.gross_loan, rowGet cols.total_deposit r.total_deposit with
      | some gl, some td =>
        if td ≠ 0 then
          let ldr := gl / td
          if ldr < 2/5 ∨ ldr > 13/10 then
            [mkAnom ATag.ratio_out_of_range Severity.warning (some r.symbol) none (some ldr)]
          else []
        else []
      | _, _ => []) ++
    (if cols.current_account && cols.savings_account && cols.time_deposit then
      let parts := r.current_account.getD 0 + r.savings_account.getD 0 +
        r.time_deposit.getD 0
      match r.current_account, r.savings_account with
      | some ca, some sa =>
        if parts ≠ 0 then
          let casa := (ca + sa) / parts
          if casa < 0 ∨ casa > 1 then
            [mkAnom ATag.ratio_out_of_range Severity.warning (some r.symbol) none (some casa)]
          else []
        else []
      | _, _ => []
    else []) ++
    (if cols.total_capital && cols.total_risk_weighted_asset then
      match r.total_capital, r.total_risk_weighted_asset with
      | some tc, some w =>
        if w ≠ 0 then
          let car := tc / w
          if car < 1/10 then
            [mkAnom ATag.ratio_out_of_range Severity.warning (some r.symbol) none (some car)]
          else []
        else []
      | _, _ => []
    else []) ++
    (match rowGet cols.net_interest_income r.net_interest_income,
        rowGet cols.total_assets r.total_assets with
      | some nii, some ta =>
        if ta ≠ 0 then
          let nim := nii / ta
          if nim < -1/50 ∨ nim > 1/4 then
            [mkAnom ATag.ratio_out_of_range Severity.info (some r.symbol) none (some nim)]
          else []
        else []
      | _, _ => []) ++
    (match rowGet cols.operating_expense r.operating_expense with
      | some oe =>
        let income := (if cols.net_interest_income then r.net_interest_income.getD 0 else 0) +
          (if cols.non_interest_income then r.non_interest_income.getD 0 else 0)
        if income ≠ 0 then
          let cir := oe / income
          if cir < 0 ∨ cir > 3 then
            [mkAnom ATag.ratio_out_of_range Severity.warning (some r.symbol) none (some cir)]
          else []
        else []
      | none => []) ++
    (match rowGet cols.allowance_for_loans r.allowance_for_loans,
        rowGet cols.gross_loan r.gross_loan with
      | some al, some gl =>
        if gl ≠ 0 then
          let cov := |al| / gl
          if cov < 0 ∨ cov > 1/2 then
            [mkAnom ATag.ratio_out_of_range Severity.info (some r.symbol) none (some cov)]
          else []
        else []
      | _, _ => [])

/-- `IDXFinancialValidator._add_ratio_anomalies` over the whole frame. -/
def addRatioAnomalies (cols : Cols) (rows : List FinRow) : List Anomaly :=
  rows.flatMap (ratioAnomaliesRow cols)

/-- Stable ascending insertion by `period` (models `sort_values` on the
    year / date key; ordering among equal keys does not affect any claim). -/
def insertByPeriod (r : FinRow) : List FinRow → List FinRow
  | [] => [r]
  | x :: xs => if x.period ≤ r.period then x :: insertByPeriod r xs else r :: x :: xs

/-- Sort a symbol's rows by period. -/
def sortByPeriod : List FinRow → List FinRow
  | [] => []
  | r :: rest => insertByPeriod r (sortByPeriod rest)

/-- `Series.pct_change(fill_method=None) * 100` followed by `dropna()`: the
    percentage change between positionally consecutive cells, dropped when either
    cell is null. A zero previous value (an infinite float change, which can never
    satisfy the `> avg * mult` cut since the average is then also infinite) is
    likewise dropped. -/
def pctChanges (vals : List (Option ℚ)) : List ℚ :=
  (vals.zip vals.tail).filterMap (fun pc =>
    match pc with
    | (some p, some c) => if p = 0 then none else some ((c - p) / p * 100)
    | _ => none)

/-- Mean of the absolute changes (`changes.abs().mean()`). -/
def avgAbs (changes : List ℚ) : ℚ :=
  ((changes.map (fun c => |c|)).sum) / (changes.length : ℚ)

/-- One period's qualification test, as the source writes it:
    `(changes.abs() > floor) & (changes.abs() > avg_abs_change * mult)`. -/
def qualifiesB (floorPct mult avg c : ℚ) : Bool :=
  decide (|c| > floorPct) && decide (|c| > avg * mult)

/-- The extreme-change core: a dataset-level anomaly fires for an entity-metric
    pair exactly when strictly more than one period qualifies. -/
def extremeDetect (floorPct mult : ℚ) (changes : List ℚ) : Bool :=
  decide (1 < (changes.filter (qualifiesB floorPct mult (avgAbs changes))).length)

/-- The per-metric body of the extreme-change loop: the all-null-metric guard,
    the empty-changes guard, and the fire condition, over one symbol's sorted
    metric column. -/
def extremeForMetric (tagE : ATag) (floorPct mult : ℚ) (s : String)
    (vals : List (Option ℚ)) : List Anomaly :=
  if vals.all (fun v => v.isNone) then []
  else if (pctChanges vals).isEmpty then []
  else if extremeDetect floorPct mult (pctChanges vals) then
    [mkAnom tagE Severity.error (some s) none none]
  else []

/-- The per-symbol body of the extreme-change loop: symbols with fewer than the
    minimum number of rows are skipped, the rest run every metric. -/
def extremeForSymbol (tagE : ATag) (floorPct mult : ℚ) (minRows : Nat)
    (metrics : List (FinRow → Option ℚ)) (rows : List FinRow) (s : String) :
    List Anomaly :=
  if (sortByPeriod (rows.filter (fun r => r.symbol == s))).length < minRows then []
  else
    metrics.flatMap (fun m =>
      extremeForMetric tagE floorPct mult s
        ((sortByPeriod (rows.filter (fun r => r.symbol == s))).map m))

/-- The per-symbol / per-metric extreme-change loop shared by
    `_validate_financial_annual` (tag `extreme_annual_change`, floor 75, 2.0×,
    minimum 2 rows) and `_validate_financial_quarterly` (tag
    `extreme_quarterly_change`, floor 100, 2.5×, minimum 4 rows). Metrics are
    given as field accessors. -/
def extremeAnomaliesFor (tagE : ATag) (floorPct mult : ℚ) (minRows : Nat)
    (metrics : List (FinRow → Option ℚ)) (rows : List FinRow) : List Anomaly :=
  ((rows.map (fun r => r.symbol)).eraseDups).flatMap
    (extremeForSymbol tagE floorPct mult minRows metrics rows)

/-- The revenue-should-exceed-earnings business rule shared by the annual
    (`revenue`) and quarterly (`total_revenue`) validators: rows where both cells
    are non-null and revenue ≤ earnings are error anomalies. -/
def revVsEarningsAnomalies (revField : FinRow → Option ℚ) (rows : List FinRow) :
    List Anomaly :=
  rows.filterMap (fun r =>
    match revField r, r.earnings with
    | some v, some e =>
      if v ≤ e then
        some (mkAnom ATag.business_rule_violation Severity.error (some r.symbol) none none)
      else none
    | _, _ => none)

/-- Required columns of `_validate_financial_annual`:
    date, symbol, revenue, earnings, total_assets. -/
def annualRequiredMissing (cols : Cols) : Bool :=
  !(cols.date && cols.symbol && cols.revenue && cols.earnings && cols.total_assets)

/-- Required columns of `_validate_financial_quarterly`:
    date, symbol, total_revenue, earnings, total_assets. -/
def quarterlyRequiredMissing (cols : Cols) : Bool :=
  !(cols.date && cols.symbol && cols.total_revenue && cols.earnings && cols.total_assets)

/-- `IDXFinancialValidator._validate_financial_annual`: missing-column
    short-circuit, extreme year-over-year changes, revenue vs earnings, and —
    only when the frame holds more than 10 rows — the identity and ratio checks. -/
def validateFinancialAnnual (cols : Cols) (lookup : String → Option Int)
    (rows : List FinRow) : List Anomaly :=
  if annualRequiredMissing cols then
    [mkAnom ATag.missing_required_columns Severity.error none none none]
  else
    extremeAnomaliesFor ATag.extreme_annual_change 75 2 2
      [fun r => r.revenue, fun r => r.earnings, fun r => r.total_assets] rows ++
    revVsEarningsAnomalies (fun r => r.revenue) rows ++
    (if 10 < rows.length then
      addIdentityAnomalies cols lookup rows ++ addRatioAnomalies cols rows
    else [])

/-- `IDXFinancialValidator._validate_financial_quarterly`: the quarterly twin of
    `validateFinancialAnnual` (floor 100, 2.5× the average, at least 4 rows per
    symbol, `total_revenue` in place of `revenue`). -/
def validateFinancialQuarterly (cols : Cols) (lookup : String → Option Int)
    (rows : List FinRow) : List Anomaly :=
  if quarterlyRequiredMissing cols then
    [mkAnom ATag.missing_required_columns Severity.error none none none]
  else
    extremeAnomaliesFor ATag.extreme_quarterly_change 100 (5/2) 4
      [fun r => r.total_revenue, fun r => r.earnings, fun r => r.total_assets] rows ++
    revVsEarningsAnomalies (fun r => r.total_revenue) rows ++
    (if 10 < rows.length then
      addIdentityAnomalies cols lookup rows ++ addRatioAnomalies cols rows
    else [])

/-- One row of `idx_filings` as used by the duplicate-transaction rule. `fid` is
    the record's `id`; `ts` is its timestamp at day precision, so the source's
    `abs((ts_a - ts_b).days)` becomes `(a.ts - b.ts).natAbs`. -/
structure Filing where
  fid : Nat
  symbol : String
  holder : String
  amount : Option ℚ
  ts : Int
deriving DecidableEq

/-- Python `str.strip()` on the character list: whitespace removed from both
    ends. -/
def trimChars (l : List Char) : List Char :=
  ((l.dropWhile Char.isWhitespace).reverse.dropWhile Char.isWhitespace).reverse

/-- `str(x).strip().upper()` applied to a symbol cell. -/
def normSym (s : String) : String :=
  ⟨(trimChars s.data).map Char.toUpper⟩

/-- `str(x).strip().lower()` applied to a holder cell. -/
def normHolder (s : String) : String :=
  ⟨(trimChars s.data).map Char.toLower⟩

/-- The pair condition of `_validate_filings` rule 2: same (normalized,
    non-empty) symbol, equal transaction amount, and a timestamp distance below
    3 days — or the same holder with a distance of at most 3 days. -/
def isDupMatch (a b : Filing) : Bool :=
  let sa := normSym a.symbol
  let sb := normSym b.symbol
  if sa == sb && !(sa == "") && a.amount == b.amount then
    let dd := (a.ts - b.ts).natAbs
    let sameHolder := normHolder a.holder == normHolder b.holder
    decide (dd < 3) || (sameHolder && decide (dd ≤ 3))
  else false

/-- The inner `for j in range(i+1, ...)` loop: the first later record that is not
    already in a reported group and matches `a`. -/
def findMatch (a : Filing) (reported : List Nat) : List Filing → Option Filing
  | [] => none
  | b :: rest =>
    if b.fid ∈ reported then findMatch a reported rest
    else if isDupMatch a b then some b
    else findMatch a reported rest

/-- The outer scan of `_validate_filings` rule 2: each record not already in a
    reported group is paired with at most its first available match; both ids
    then join `reported_groups` and the outer loop moves on (`break`). -/
def dupScan (reported : List Nat) : List Filing → List (Nat × Nat)
  | [] => []
  | a :: rest =>
    if a.fid ∈ reported then dupScan reported rest
    else
      match findMatch a reported rest with
      | some b => (a.fid, b.fid) :: dupScan (a.fid :: b.fid :: reported) rest
      | none => dupScan reported rest

/-- Duplicate-transaction detection over a filings frame: rows with a null
    `amount_transaction` are dropped, and the scan only runs when more than one
    valid row remains. -/
def dupPairs (rs : List Filing) : List (Nat × Nat) :=
  if 1 < (rs.filter (fun r => r.amount.isSome)).length then
    dupScan [] (rs.filter (fun r => r.amount.isSome))
  else []

/-- The ids mentioned by a list of reported pairs. -/
def pairIds (ps : List (Nat × Nat)) : List Nat :=
  ps.flatMap (fun p => [p.1, p.2])

/-- The `duplicate_transaction` anomaly records emitted for the reported pairs
    (severity error). -/
def filingsDuplicateAnomalies (rs : List Filing) : List Anomaly :=
  (dupPairs rs).map (fun p =>
    ⟨ATag.duplicate_transaction, Severity.error, none, none, none, some p.1⟩)

/-- One row of `idx_all_time_price`: a (symbol, period type, price) triple. -/
structure PriceRow where
  symbol : String
  ptype : String
  price : Option ℚ
deriving DecidableEq

/-- One row of the `idx_daily_data` frame fetched per symbol for the
    cross-check, with nullable date (day ordinal) and close. -/
structure DailyRow where
  ddate : Option Int
  close : Option ℚ
deriving DecidableEq

/-- The pivot cell `pivot_table(..., aggfunc='first')` for one symbol and
    period type: the first non-null price among that symbol's rows of that type. -/
def bucketVal (rows : List PriceRow) (s t : String) : Option ℚ :=
  ((rows.filter (fun r => r.symbol == s && r.ptype == t && r.price.isSome)).head?).bind
    (fun r => r.price)

/-- The eight recorded period buckets of one symbol. -/
structure BucketVals where
  h90 : Option ℚ
  l90 : Option ℚ
  hytd : Option ℚ
  lytd : Option ℚ
  h52 : Option ℚ
  l52 : Option ℚ
  hall : Option ℚ
  lall : Option ℚ
deriving DecidableEq

/-- Pivot one symbol's rows into its period buckets (source `type_map` keys). -/
def bucketsOf (rows : List PriceRow) (s : String) : BucketVals :=
  ⟨bucketVal rows s "90_d_high", bucketVal rows s "90_d_low",
   bucketVal rows s "ytd_high", bucketVal rows s "ytd_low",
   bucketVal rows s "52_w_high", bucketVal rows s "52_w_low",
   bucketVal rows s "all_time_high", bucketVal rows s "all_time_low"⟩

/-- Daily rows surviving `dropna(subset=['date','close'])`. -/
def dailyCleaned (daily : List DailyRow) : List (Int × ℚ) :=
  daily.filterMap (fun d =>
    match d.ddate, d.close with
    | some dt, some c => some (dt, c)
    | _, _ => none)

/-- Maximum close inside a date window (none when the window is empty). -/
def maxIn (dd : List (Int × ℚ)) (lo hi : Int) : Option ℚ :=
  ((dd.filter (fun p => lo ≤ p.1 && p.1 ≤ hi)).map (fun p => p.2)).max?

/-- Minimum close inside a date window (none when the window is empty). -/
def minIn (dd : List (Int × ℚ)) (lo hi : Int) : Option ℚ :=
  ((dd.filter (fun p => lo ≤ p.1 && p.1 ≤ hi)).map (fun p => p.2)).min?

/-- One recorded-vs-daily comparison: a recorded high must not sit more than the
    small tolerance below the observed daily maximum of its window (and dually
    for lows); absent values produce no issue. -/
def windowIssue (hi : Bool) (v m : Option ℚ) : Nat :=
  match v, m with
  | some v, some m =>
    if hi then (if v + 1/1000000 < m then 1 else 0)
    else (if m < v - 1/1000000 then 1 else 0)
  | _, _ => 0

/-- The eight daily cross-check comparisons of `_validate_all_time_price`, run
    only when the cleaned per-symbol daily frame is non-empty. The three window
    start dates and today are inputs (the source derives them from the clock). -/
def dailyIssueCount (today start90 start52 startYtd : Int)
    (daily : List DailyRow) (v : BucketVals) : Nat :=
  let dd := dailyCleaned daily
  if dd.isEmpty then 0
  else
    windowIssue true v.h90 (maxIn dd start90 today) +
    windowIssue true v.h52 (maxIn dd start52 today) +
    windowIssue true v.hytd (maxIn dd startYtd today) +
    windowIssue true v.hall ((dd.map (fun p => p.2)).max?) +
    windowIssue false v.l90 (minIn dd start90 today) +
    windowIssue false v.l52 (minIn dd start52 today) +
    windowIssue false v.lytd (minIn dd startYtd today) +
    windowIssue false v.lall ((dd.map (fun p => p.2)).min?)

/-- The recorded highs that are available, in the source's hierarchy order
    90d, ytd, 52w, all-time. -/
def highsList (v : BucketVals) : List ℚ :=
  [v.h90, v.hytd, v.h52, v.hall].filterMap id

/-- The recorded lows that are available, in the same hierarchy order. -/
def lowsList (v : BucketVals) : List ℚ :=
  [v.l90, v.lytd, v.l52, v.lall].filterMap id

/-- Adjacent-pair violations among the available highs: a high that exceeds the
    next-longer-window high. -/
def hiViolations : List ℚ → Nat
  | a :: b :: rest => (if b < a then 1 else 0) + hiViolations (b :: rest)
  | _ => 0

/-- Adjacent-pair violations among the available lows: a low that sits below the
    next-longer-window low. -/
def loViolations : List ℚ → Nat
  | a :: b :: rest => (if a < b then 1 else 0) + loViolations (b :: rest)
  | _ => 0

/-- All issues collected for one symbol by `_validate_all_time_price`. -/
def symbolIssueCount (today start90 start52 startYtd : Int)
    (daily : String → List DailyRow) (rows : List PriceRow) (s : String) : Nat :=
  dailyIssueCount today start90 start52 startYtd (daily s) (bucketsOf rows s) +
  hiViolations (highsList (bucketsOf rows s)) +
  loViolations (lowsList (bucketsOf rows s))

/-- `IDXFinancialValidator._validate_all_time_price`: after the required-column
    check, one `price_data_inconsistency` error anomaly per symbol whose issue
    list is non-empty. `colsOk` models the presence of symbol/type/date/price. -/
def validateAllTimePrice (today start90 start52 startYtd : Int)
    (daily : String → List DailyRow) (colsOk : Bool) (rows : List PriceRow) :
    List Anomaly :=
  if !colsOk then [mkAnom ATag.missing_required_columns Severity.error none none none]
  else
    ((rows.map (fun r => r.symbol)).eraseDups).filterMap (fun s =>
      if symbolIssueCount today start90 start52 startYtd daily rows s = 0 then none
      else some (mkAnom ATag.price_data_inconsistency Severity.error (some s) none none))

/-- The results object handed to `_store_validation_results` (and, on fallback,
    to `_store_results_locally`). -/
structure ResultsObj where
  status : Status
  totalRows : Nat
  anomaliesCount : Nat
  anomalies : List Anomaly
deriving DecidableEq

/-- `len(json.dumps(anomalies))` for a list of dicts whose individual serialized
    sizes are given by the oracle `sz`: two bracket characters, the records, and
    a two-character `", "` separator between consecutive records. -/
def dumpsLen (sz : Anomaly → Nat) (xs : List Anomaly) : Nat :=
  2 + (xs.map sz).sum + 2 * (xs.length - 1)

/-- The synthetic `truncated_results` marker (severity info) that records how
    many anomalies the untruncated list held. -/
def truncMarker (origCount : Nat) : Anomaly :=
  ⟨ATag.truncated_results, Severity.info, none, none, none, some origCount⟩

/-- The database-size cap of `_store_validation_results`: when the serialized
    anomaly list exceeds 50,000 characters the stored copy is cut to
    `anomalies[:20]` plus the marker; otherwise it is stored as is. -/
def truncateForDb (sz : Anomaly → Nat) (xs : List Anomaly) : List Anomaly :=
  if 50000 < dumpsLen sz xs then xs.take 20 ++ [truncMarker xs.length] else xs

/-- The retry loop of `_store_validation_results` (`max_retries = 3`): given the
    per-attempt insert outcome oracle, returns (attempts made, sleeps taken,
    success). A failed non-final attempt sleeps one second and retries; a failed
    final attempt re-raises into the surrounding handler. -/
def insertLoop (insertOk : Nat → Bool) : Nat → Nat → Nat × Nat × Bool
  | 0, _ => (0, 0, false)
  | fuel + 1, idx =>
    if insertOk idx then (1, 0, true)
    else if fuel = 0 then (1, 0, false)
    else
      let r := insertLoop insertOk fuel (idx + 1)
      (r.1 + 1, r.2.1 + 1, r.2.2)

/-- Observable trace of one `_store_validation_results` call. -/
structure StoreTrace where
  dbPayload : List Anomaly
  insertAttempts : Nat
  sleepSeconds : List Nat
  insertSucceeded : Bool
  localPayload : Option ResultsObj
  exceptionPropagated : Bool
deriving DecidableEq

/-- `DataValidator._store_validation_results`: build the (possibly truncated)
    database payload, try the insert up to three times with a one-second sleep
    between attempts, and on exhausted retries hand the caller's full results
    object to the local-file fallback. The surrounding handler swallows every
    storage exception, so none propagates to the caller. -/
def storeValidationResults (sz : Anomaly → Nat) (insertOk : Nat → Bool)
    (results : ResultsObj) : StoreTrace :=
  ⟨truncateForDb sz results.anomalies,
   (insertLoop insertOk 3 0).1,
   List.replicate (insertLoop insertOk 3 0).2.1 1,
   (insertLoop insertOk 3 0).2.2,
   if (insertLoop insertOk 3 0).2.2 then none else some results,
   false⟩

/-- The anomalies a table-specific check produced, or none at all when the
    fetched frame is empty (`if not data.empty` in `validate_table`). -/
def idxAllAnoms (check : List FinRow → List Anomaly) (data : List FinRow) :
    List Anomaly :=
  if data.isEmpty then [] else check data

/-- The error-severity subset kept for database storage
    (`[a for a in anomalies if a.get("severity") == "error"]`). -/
def idxErrorAnoms (anoms : List Anomaly) : List Anomaly :=
  anoms.filter (fun a =>
    match a.severity with
    | Severity.error => true
    | _ => false)

/-- Status derivation of the specialized validator: any stored (error) anomaly
    makes the run an error, otherwise the initial success stands. -/
def idxStatus (cnt : Nat) : Status :=
  if 0 < cnt then Status.error else Status.success

/-- The result object returned by `IDXFinancialValidator.validate_table`. -/
structure IdxRunResult where
  totalRows : Nat
  anomaliesCount : Nat
  anomalies : List Anomaly
  status : Status
  trace : StoreTrace
deriving DecidableEq

/-- `IDXFinancialValidator.validate_table`: fetch (a failed fetch, `fetched =
    none`, degrades to an empty frame), run the table's check only on a
    non-empty frame, filter the error subset, derive count and status from it,
    store that subset, and return the full anomaly list to the caller. -/
def idxValidateTable (sz : Anomaly → Nat) (insertOk : Nat → Bool)
    (check : List FinRow → List Anomaly) (fetched : Option (List FinRow)) :
    IdxRunResult :=
  ⟨(fetched.getD []).length,
   (idxErrorAnoms (idxAllAnoms check (fetched.getD []))).length,
   idxAllAnoms check (fetched.getD []),
   idxStatus (idxErrorAnoms (idxAllAnoms check (fetched.getD []))).length,
   storeValidationResults sz insertOk
     ⟨idxStatus (idxErrorAnoms (idxAllAnoms check (fetched.getD []))).length,
      (fetched.getD []).length,
      (idxErrorAnoms (idxAllAnoms check (fetched.getD []))).length,
      idxErrorAnoms (idxAllAnoms check (fetched.getD []))⟩⟩

/-- Aggregation of the generic `DataValidator.validate_table`: the count is over
    all severities, and the status compares it with the configured
    `error_threshold` (above it error, otherwise warning when positive). -/
def genericAggregate (anoms : List Anomaly) (errorThreshold : Nat) : Nat × Status :=
  (anoms.length,
   if 0 < anoms.length then
     (if errorThreshold < anoms.length then Status.error else Status.warning)
   else Status.success)

/-- Concrete annual row: assets 1e12, liabilities 8.9e11, equity 0, giving a
    difference of 1.1e11 (within no tolerance) and a deviation of exactly 11%. -/
def c1row : FinRow :=
  ⟨"TEST.JK", 0, some 1000000000000, some 890000000000, some 0,
   none, none, none, none, none, none, none, none, none, none, none, none, none,
   none, none, none, none, none, none, none, none, none, none, none⟩

/-- Concrete annual row with revenue 5 below earnings 10 (a business-rule hit). -/
def c10row : FinRow :=
  ⟨"TEST.JK", 0, none, none, none,
   none, none, none, none, some 10, none, none, none, none, none, none, none, none,
   none, none, none, none, none, none, none, none, none, none, some 5⟩

/-- Filing record A: symbol ABCD.JK, amount 1000, day 0. -/
def fA : Filing :=
  ⟨1, "ABCD.JK", "Alice Holder", some 1000, 0⟩

/-- Filing record B: same symbol and amount as A, one day later, other holder. -/
def fB : Filing :=
  ⟨2, "ABCD.JK", "Bob Holder", some 1000, 1⟩

/-- All-time-price rows holding only a 90-day high of 100 and a year-to-date
    high of 90 for one symbol. -/
def c7rows : List PriceRow :=
  [⟨"AAAA.JK", "90_d_high", some 100⟩, ⟨"AAAA.JK", "ytd_high", some 90⟩]

/-- A bare anomaly record used as concrete payload in persistence statements. -/
def a0 : Anomaly :=
  mkAnom ATag.validation_error Severity.error none none none

/-- A bare results object used in persistence statements. -/
def results0 : ResultsObj :=
  ⟨Status.success, 0, 0, [a0]⟩

section MainTheorems

attribute [local semireducible] Rat.add Rat.sub Rat.mul Rat.inv

/-- The detector core fires exactly when strictly more than one period passes
    both the fixed floor and the average-multiple cut. -/
theorem extremeDetect_iff (floorPct mult : ℚ) (changes : List ℚ) :
    extremeDetect floorPct mult changes = true ↔
      1 < changes.countP (fun c => decide (|c| > floorPct ∧ |c| > avgAbs changes * mult)) := by
  unfold extremeDetect qualifiesB
  rw [decide_eq_true_eq, List.countP_eq_length_filter]
  constructor
  · intro h
    convert h using 3
    funext c
    rw [Bool.decide_and]
  · intro h
    convert h using 3
    funext c
    rw [Bool.decide_and]

/-- C9. The tolerance helper equals max(|base|·rel, floor) and, for nonnegative
    rel, is monotone non-decreasing in |base|. -/
theorem claim_c9_tolerance :
    (∀ base rel absTol : ℚ, tolerance base rel absTol = max (|base| * rel) absTol)
    ∧ (∀ b1 b2 rel absTol : ℚ, 0 ≤ rel → |b1| ≤ |b2| →
        tolerance b1 rel absTol ≤ tolerance b2 rel absTol) := by
  constructor
  · intro base rel absTol
    rfl
  · intro b1 b2 rel absTol hrel hb
    unfold tolerance
    exact max_le_max (mul_le_mul_of_nonneg_right hb hrel) le_rfl

/-- C9 witness: the monotonicity instance at base 1 versus base −4. -/
theorem claim_c9_witness :
    tolerance 1 (1/2) 3 ≤ tolerance (-4) (1/2) 3 :=
  claim_c9_tolerance.2 1 (-4) (1/2) 3 (by decide) (by decide)

/-- C1 counterexample. On a row whose deviation is exactly 11% (assets 1e12,
    liabilities 8.9e11, equity 0) the assets identity flags the row with severity
    warning, not error — refuting the claim that exactly 11.0% classifies as
    error. -/
theorem claim_c1_counterexample :
    assetsIdentityAnomalies colsAll [c1row] =
      [⟨ATag.identity_violation, Severity.warning, some "TEST.JK", some 11, none, none⟩]
    ∧ Severity.warning ≠ Severity.error := by
  constructor
  · decide
  · decide

/-- C1 (amended). The assets/liabilities/equity severity tiers are strict:
    more than 11% is an error (11.01% → error, but exactly 11.0% → warning),
    more than 5% a warning (10.99% → warning, but exactly 5.0% → info),
    otherwise info (4.99% → info); and every row flagged by the identity check
    carries exactly the severity this tiering assigns to its recorded deviation
    percentage. -/
theorem claim_c1_tiering :
    identityTier (1101/100) = Severity.error
    ∧ identityTier 11 = Severity.warning
    ∧ identityTier (1099/100) = Severity.warning
    ∧ identityTier 5 = Severity.info
    ∧ identityTier (499/100) = Severity.info
    ∧ ∀ (cols : Cols) (rows : List FinRow) (a : Anomaly),
        a ∈ assetsIdentityAnomalies cols rows →
        ∃ p, a.diff_pct = some p ∧ a.severity = identityTier p := by
  refine ⟨by decide, by decide, by decide, by decide, by decide, ?_⟩
  intro cols rows a ha
  unfold assetsIdentityAnomalies at ha
  split at ha
  · rw [List.mem_filterMap] at ha
    obtain ⟨r, hr, hfa⟩ := ha
    split at hfa
    · split at hfa
      · simp only [mkAnom, Option.some.injEq] at hfa
        subst hfa
        exact ⟨_, rfl, rfl⟩
      · exact absurd hfa (by simp)
    · exact absurd hfa (by simp)
  · exact absurd ha (by simp)

/-- C1 witness: the flagged-row severity characterization applied to the
    concrete 11%-deviation row. -/
theorem claim_c1_witness :
    ∃ p, (⟨ATag.identity_violation, Severity.warning, some "TEST.JK", some 11, none,
        none⟩ : Anomaly).diff_pct = some p
      ∧ (⟨ATag.identity_violation, Severity.warning, some "TEST.JK", some 11, none,
        none⟩ : Anomaly).severity = identityTier p :=
  claim_c1_tiering.2.2.2.2.2 colsAll [c1row] _ (by decide)

/-- C2. In both detectors an extreme-change anomaly fires exactly when more than
    one period qualifies, where a period qualifies exactly when its absolute
    percentage change exceeds the fixed floor (75 annual, 100 quarterly) and the
    multiple of the pair's average absolute change (2.0× annual, 2.5× quarterly);
    a count of exactly one qualifying period never fires, and the concrete
    single-spike histories do not fire while their two-spike variants do. -/
theorem claim_c2_extreme_change :
    (∀ changes : List ℚ, extremeDetect 75 2 changes = true ↔
        1 < changes.countP (fun c => decide (|c| > 75 ∧ |c| > avgAbs changes * 2)))
    ∧ (∀ changes : List ℚ, extremeDetect 100 (5/2) changes = true ↔
        1 < changes.countP (fun c => decide (|c| > 100 ∧ |c| > avgAbs changes * (5/2))))
    ∧ (∀ (floorPct mult : ℚ) (changes : List ℚ),
        changes.countP (fun c => decide (|c| > floorPct ∧ |c| > avgAbs changes * mult)) = 1 →
        extremeDetect floorPct mult changes = false)
    ∧ extremeDetect 75 2 [200, 10, 0] = false
    ∧ extremeDetect 75 2 [200, 200, 0, 0, 0, 0, 0, 0] = true
    ∧ extremeDetect 100 (5/2) [300, 0, 0, 0] = false
    ∧ extremeDetect 100 (5/2) [300, 300, 0, 0, 0, 0] = true := by
  refine ⟨fun changes => extremeDetect_iff 75 2 changes,
    fun changes => extremeDetect_iff 100 (5/2) changes, ?_, by decide, by decide,
    by decide, by decide⟩
  intro floorPct mult changes h
  cases hb : extremeDetect floorPct mult changes
  · rfl
  · have h1 := (extremeDetect_iff floorPct mult changes).1 hb
    rw [h] at h1
    exact absurd h1 (lt_irrefl 1)

/-- C2 witness: the one-qualifying-period case applied to the concrete
    single-spike history [200, 10, 0]. -/
theorem claim_c2_witness :
    List.countP (fun c => decide (|c| > 75 ∧ |c| > avgAbs [200, 10, 0] * 2))
        [200, 10, 0] = 1
    ∧ extremeDetect 75 2 [200, 10, 0] = false :=
  ⟨by decide, claim_c2_extreme_change.2.2.1 75 2 [200, 10, 0] (by decide)⟩

/-- C3 counterexample. A single anomaly whose serialized dict is 60,000
    characters exceeds the 50,000-character cap, yet the stored payload holds
    that one anomaly plus the marker — two records, not the claimed twenty
    originals plus one. -/
theorem claim_c3_counterexample :
    50000 < dumpsLen (fun _ => 60000) [a0]
    ∧ truncateForDb (fun _ => 60000) [a0] = [a0, truncMarker 1]
    ∧ (truncateForDb (fun _ => 60000) [a0]).length = 2
    ∧ (2 : Nat) ≠ 21 := by
  refine ⟨by decide, by decide, by decide, by decide⟩

/-- C3 (amended). When the serialized anomaly list exceeds 50,000 characters the
    database payload is the first min(20, n) anomalies plus exactly one
    truncation marker (so exactly the first 20 plus the marker whenever at least
    20 anomalies exist); at or below 50,000 characters the list is stored
    unchanged; the payload handed to the insert is exactly this truncation of
    the results object's anomaly list; and the anomaly list returned to the
    caller is the full check output, independent of storage. -/
theorem claim_c3_truncation :
    (∀ (sz : Anomaly → Nat) (xs : List Anomaly), 50000 < dumpsLen sz xs →
      truncateForDb sz xs = xs.take 20 ++ [truncMarker xs.length])
    ∧ (∀ (sz : Anomaly → Nat) (xs : List Anomaly), dumpsLen sz xs ≤ 50000 →
      truncateForDb sz xs = xs)
    ∧ (∀ (sz : Anomaly → Nat) (xs : List Anomaly), 50000 < dumpsLen sz xs →
        20 ≤ xs.length → (xs.take 20).length = 20
          ∧ truncateForDb sz xs = xs.take 20 ++ [truncMarker xs.length])
    ∧ (∀ (sz : Anomaly → Nat) (insertOk : Nat → Bool) (results : ResultsObj),
      (storeValidationResults sz insertOk results).dbPayload =
        truncateForDb sz results.anomalies)
    ∧ (∀ (sz : Anomaly → Nat) (insertOk : Nat → Bool)
        (check : List FinRow → List Anomaly) (data : List FinRow),
      (idxValidateTable sz insertOk check (some data)).anomalies =
        idxAllAnoms check data) := by
  refine ⟨?_, ?_, ?_, ?_, ?_⟩
  · intro sz xs h
    unfold truncateForDb
    rw [if_pos h]
  · intro sz xs h
    unfold truncateForDb
    rw [if_neg (by omega)]
  · intro sz xs h h20
    refine ⟨?_, ?_⟩
    · rw [List.length_take]
      omega
    · unfold truncateForDb
      rw [if_pos h]
  · intro sz insertOk results
    rfl
  · intro sz insertOk check data
    rfl

/-- C3 witness: the over-cap truncation applied to a concrete list of 21
    anomalies of 3,000 serialized characters each (63,042 characters total). -/
theorem claim_c3_witness :
    truncateForDb (fun _ => 3000) (List.replicate 21 a0) =
      (List.replicate 21 a0).take 20 ++ [truncMarker (List.replicate 21 a0).length] :=
  claim_c3_truncation.1 (fun _ => 3000) (List.replicate 21 a0) (by decide)

/-- C4. When all three insert attempts fail, the gateway has attempted the
    insert exactly 3 times with two one-second sleeps between attempts, hands
    the full (untruncated) results object to the local-file fallback, and — in
    every case, failure or not — propagates no exception to the caller. -/
theorem claim_c4_retry_fallback :
    (∀ (sz : Anomaly → Nat) (insertOk : Nat → Bool) (results : ResultsObj),
      insertOk 0 = false → insertOk 1 = false → insertOk 2 = false →
        (storeValidationResults sz insertOk results).insertAttempts = 3
        ∧ (storeValidationResults sz insertOk results).sleepSeconds = [1, 1]
        ∧ (storeValidationResults sz insertOk results).localPayload = some results
        ∧ (storeValidationResults sz insertOk results).insertSucceeded = false)
    ∧ (∀ (sz : Anomaly → Nat) (insertOk : Nat → Bool) (results : ResultsObj),
      (storeValidationResults sz insertOk results).exceptionPropagated = false) := by
  constructor
  · intro sz insertOk results h0 h1 h2
    have hloop : insertLoop insertOk 3 0 = (3, 2, false) := by
      unfold insertLoop
      rw [h0]
      unfold insertLoop
      rw [h1]
      unfold insertLoop
      rw [h2]
      rfl
    refine ⟨?_, ?_, ?_, ?_⟩ <;>
      simp only [storeValidationResults, hloop] <;> rfl
  · intro sz insertOk results
    rfl

/-- C4 witness: the exhausted-retry behavior at a concrete always-failing
    insert oracle and a concrete results object. -/
theorem claim_c4_witness :
    (storeValidationResults (fun _ => 10) (fun _ => false) results0).insertAttempts = 3
    ∧ (storeValidationResults (fun _ => 10) (fun _ => false) results0).sleepSeconds = [1, 1]
    ∧ (storeValidationResults (fun _ => 10) (fun _ => false) results0).localPayload =
        some results0
    ∧ (storeValidationResults (fun _ => 10) (fun _ => false) results0).insertSucceeded =
        false :=
  claim_c4_retry_fallback.1 (fun _ => 10) (fun _ => false) results0 rfl rfl rfl

/-- C6. The specialized validator's `anomalies_count` counts exactly the
    error-severity anomalies (the persisted subset), with status error exactly
    when that count is positive and success exactly when it is zero; the generic
    validator counts anomalies of all severities, with status error exactly above
    the configured threshold, warning exactly for a positive count at or below
    it, and success exactly at zero. -/
theorem claim_c6_counts_status :
    (∀ (sz : Anomaly → Nat) (insertOk : Nat → Bool)
        (check : List FinRow → List Anomaly) (data : List FinRow),
      (idxValidateTable sz insertOk check (some data)).anomaliesCount =
        (idxAllAnoms check data).countP (fun a =>
          match a.severity with
          | Severity.error => true
          | _ => false)
      ∧ ((idxValidateTable sz insertOk check (some data)).status = Status.error ↔
          0 < (idxValidateTable sz insertOk check (some data)).anomaliesCount)
      ∧ ((idxValidateTable sz insertOk check (some data)).status = Status.success ↔
          (idxValidateTable sz insertOk check (some data)).anomaliesCount = 0))
    ∧ (∀ (anoms : List Anomaly) (threshold : Nat),
      (genericAggregate anoms threshold).1 = anoms.length
      ∧ ((genericAggregate anoms threshold).2 = Status.error ↔
          threshold < anoms.length)
      ∧ ((genericAggregate anoms threshold).2 = Status.warning ↔
          0 < anoms.length ∧ anoms.length ≤ threshold)
      ∧ ((genericAggregate anoms threshold).2 = Status.success ↔
          anoms.length = 0)) := by
  constructor
  · intro sz insertOk check data
    refine ⟨(List.countP_eq_length_filter _ _).symm, ?_, ?_⟩
    · show idxStatus (idxErrorAnoms (idxAllAnoms check data)).length = Status.error ↔
        0 < (idxErrorAnoms (idxAllAnoms check data)).length
      unfold idxStatus
      by_cases h : 0 < (idxErrorAnoms (idxAllAnoms check data)).length
      · rw [if_pos h]
        simp [h]
      · rw [if_neg h]
        simp [h]
    · show idxStatus (idxErrorAnoms (idxAllAnoms check data)).length = Status.success ↔
        (idxErrorAnoms (idxAllAnoms check data)).length = 0
      unfold idxStatus
      by_cases h : 0 < (idxErrorAnoms (idxAllAnoms check data)).length
      · rw [if_pos h]
        constructor
        · intro hc
          exact absurd hc (by simp)
        · intro hc
          omega
      · rw [if_neg h]
        constructor
        · intro _
          omega
        · intro _
          rfl
  · intro anoms threshold
    refine ⟨rfl, ?_, ?_, ?_⟩
    · show (if 0 < anoms.length then
          (if threshold < anoms.length then Status.error else Status.warning)
        else Status.success) = Status.error ↔ threshold < anoms.length
      by_cases h0 : 0 < anoms.length
      · rw [if_pos h0]
        by_cases ht : threshold < anoms.length
        · rw [if_pos ht]
          simp [ht]
        · rw [if_neg ht]
          simp [ht]
      · rw [if_neg h0]
        constructor
        · intro hc
          exact absurd hc (by simp)
        · intro hc
          omega
    · show (if 0 < anoms.length then
          (if threshold < anoms.length then Status.error else Status.warning)
        else Status.success) = Status.warning ↔
          0 < anoms.length ∧ anoms.length ≤ threshold
      by_cases h0 : 0 < anoms.length
      · rw [if_pos h0]
        by_cases ht : threshold < anoms.length
        · rw [if_pos ht]
          constructor
          · intro hc
            exact absurd hc (by simp)
          · intro hc
            omega
        · rw [if_neg ht]
          constructor
          · intro _
            exact ⟨h0, by omega⟩
          · intro _
            rfl
      · rw [if_neg h0]
        constructor
        · intro hc
          exact absurd hc (by simp)
        · intro hc
          exact absurd hc.1 h0
    · show (if 0 < anoms.length then
          (if threshold < anoms.length then Status.error else Status.warning)
        else Status.success) = Status.success ↔ anoms.length = 0
      by_cases h0 : 0 < anoms.length
      · rw [if_pos h0]
        by_cases ht : threshold < anoms.length
        · rw [if_pos ht]
          constructor
          · intro hc
            exact absurd hc (by simp)
          · intro hc
            omega
        · rw [if_neg ht]
          constructor
          · intro hc
            exact absurd hc (by simp)
          · intro hc
            omega
      · rw [if_neg h0]
        constructor
        · intro _
          omega
        · intro _
          rfl

/-- C8. For every check function, an empty fetched frame — returned both by an
    outright fetch failure (modelled as `none`) and by an empty result set —
    gives zero total rows, an empty anomaly list, a zero count, and a success
    status (the check never runs, so it cannot raise). -/
theorem claim_c8_empty_dataset :
    ∀ (sz : Anomaly → Nat) (insertOk : Nat → Bool)
        (check : List FinRow → List Anomaly),
      ((idxValidateTable sz insertOk check none).totalRows = 0
        ∧ (idxValidateTable sz insertOk check none).anomalies = []
        ∧ (idxValidateTable sz insertOk check none).anomaliesCount = 0
        ∧ (idxValidateTable sz insertOk check none).status = Status.success)
      ∧ ((idxValidateTable sz insertOk check (some [])).totalRows = 0
        ∧ (idxValidateTable sz insertOk check (some [])).anomalies = []
        ∧ (idxValidateTable sz insertOk check (some [])).anomaliesCount = 0
        ∧ (idxValidateTable sz insertOk check (some [])).status = Status.success) := by
  intro sz insertOk check
  exact ⟨⟨rfl, rfl, rfl, rfl⟩, ⟨rfl, rfl, rfl, rfl⟩⟩

/-- Splitting a reported pair list into its ids. -/
theorem pairIds_cons (x y : Nat) (ps : List (Nat × Nat)) :
    pairIds ((x, y) :: ps) = x :: y :: pairIds ps := rfl

/-- A successful inner-loop match is a later record whose id is not yet in a
    reported group. -/
theorem findMatch_eq_some (a : Filing) (reported : List Nat) (l : List Filing)
    (b : Filing) (h : findMatch a reported l = some b) :
    b ∈ l ∧ b.fid ∉ reported := by
  induction l with
  | nil => simp [findMatch] at h
  | cons x rest ih =>
    unfold findMatch at h
    split at h
    · obtain ⟨hb, hrep⟩ := ih h
      exact ⟨List.mem_cons_of_mem _ hb, hrep⟩
    · rename_i hxrep
      split at h
      · injection h with h2
        subst h2
        exact ⟨List.mem_cons_self _ _, hxrep⟩
      · obtain ⟨hb, hrep⟩ := ih h
        exact ⟨List.mem_cons_of_mem _ hb, hrep⟩

/-- Invariant of the duplicate scan: with distinct input ids, the reported pair
    ids are distinct, avoid the already-reported set, and come from the input. -/
theorem dupScan_ids_spec (rest : List Filing) :
    ∀ reported : List Nat, (rest.map Filing.fid).Nodup →
      (pairIds (dupScan reported rest)).Nodup
      ∧ ∀ i ∈ pairIds (dupScan reported rest),
          i ∉ reported ∧ i ∈ rest.map Filing.fid := by
  induction rest with
  | nil =>
    intro reported _
    simp [dupScan, pairIds]
  | cons a rest ih =>
    intro reported hnd
    have hnd1 : (a.fid :: rest.map Filing.fid).Nodup := by simpa using hnd
    have hnd2 : (rest.map Filing.fid).Nodup := (List.nodup_cons.1 hnd1).2
    have hafid : a.fid ∉ rest.map Filing.fid := (List.nodup_cons.1 hnd1).1
    unfold dupScan
    by_cases hmem : a.fid ∈ reported
    · rw [if_pos hmem]
      obtain ⟨h1, h2⟩ := ih reported hnd2
      refine ⟨h1, fun i hi => ⟨(h2 i hi).1, ?_⟩⟩
      rw [List.map_cons]
      exact List.mem_cons_of_mem _ (h2 i hi).2
    · rw [if_neg hmem]
      cases hfm : findMatch a reported rest with
      | none =>
        obtain ⟨h1, h2⟩ := ih reported hnd2
        refine ⟨h1, fun i hi => ⟨(h2 i hi).1, ?_⟩⟩
        rw [List.map_cons]
        exact List.mem_cons_of_mem _ (h2 i hi).2
      | some b =>
        obtain ⟨hbmem, hbrep⟩ := findMatch_eq_some a reported rest b hfm
        have hbfid : b.fid ∈ rest.map Filing.fid := List.mem_map_of_mem _ hbmem
        obtain ⟨ih1, ih2⟩ := ih (a.fid :: b.fid :: reported) hnd2
        rw [pairIds_cons]
        constructor
        · rw [List.nodup_cons, List.nodup_cons]
          refine ⟨?_, ?_, ih1⟩
          · intro hcon
            rcases List.mem_cons.1 hcon with h | h
            · exact hafid (h ▸ hbfid)
            · exact (ih2 _ h).1 (by simp)
          · intro hcon
            exact (ih2 _ hcon).1 (by simp)
        · intro i hi
          rcases List.mem_cons.1 hi with h | hi2
          · subst h
            refine ⟨hmem, ?_⟩
            rw [List.map_cons]
            exact List.mem_cons_self _ _
          rcases List.mem_cons.1 hi2 with h | hi3
          · subst h
            refine ⟨hbrep, ?_⟩
            rw [List.map_cons]
            exact List.mem_cons_of_mem _ hbfid
          · obtain ⟨hnotrep, hmem2⟩ := ih2 i hi3
            refine ⟨fun hc => hnotrep (by simp [hc]), ?_⟩
            rw [List.map_cons]
            exact List.mem_cons_of_mem _ hmem2

/-- C5. Duplicate-transaction detection is a pure function of its input (so two
    runs on the same input report the same pairs); when the input records carry
    distinct ids, no id ever appears in more than one reported pair; and the
    concrete two-record input — same symbol, identical amount, timestamps one
    day apart — yields exactly the single pair (1, 2). -/
theorem claim_c5_duplicates :
    (∀ rs : List Filing, (rs.map Filing.fid).Nodup →
      (pairIds (dupPairs rs)).Nodup)
    ∧ dupPairs [fA, fB] = [(1, 2)]
    ∧ pairIds (dupPairs [fA, fB]) = [1, 2] := by
  refine ⟨?_, by decide, by decide⟩
  intro rs hnd
  unfold dupPairs
  by_cases h : 1 < (rs.filter (fun r => r.amount.isSome)).length
  · rw [if_pos h]
    have hsub : List.Sublist ((rs.filter (fun r => r.amount.isSome)).map Filing.fid)
        (rs.map Filing.fid) := (List.filter_sublist rs).map Filing.fid
    exact (dupScan_ids_spec _ [] (hnd.sublist hsub)).1
  · rw [if_neg h]
    simp [pairIds]

/-- C5 witness: the no-double-pairing property applied to the concrete
    two-record input. -/
theorem claim_c5_witness :
    (pairIds (dupPairs [fA, fB])).Nodup :=
  claim_c5_duplicates.1 [fA, fB] (by decide)

/-- Every anomaly the extreme-change metric body emits carries its tag. -/
theorem tag_of_mem_extremeForMetric (tagE : ATag) (floorPct mult : ℚ) (s : String)
    (vals : List (Option ℚ)) (a : Anomaly)
    (ha : a ∈ extremeForMetric tagE floorPct mult s vals) : a.tag = tagE := by
  unfold extremeForMetric at ha
  split at ha
  · exact absurd ha (by simp)
  · split at ha
    · exact absurd ha (by simp)
    · split at ha
      · rw [List.mem_singleton] at ha
        subst ha
        rfl
      · exact absurd ha (by simp)

/-- Every anomaly the extreme-change loop emits carries its tag. -/
theorem tag_of_mem_extremeAnomaliesFor (tagE : ATag) (floorPct mult : ℚ)
    (minRows : Nat) (metrics : List (FinRow → Option ℚ)) (rows : List FinRow)
    (a : Anomaly) (ha : a ∈ extremeAnomaliesFor tagE floorPct mult minRows metrics rows) :
    a.tag = tagE := by
  unfold extremeAnomaliesFor at ha
  rw [List.mem_flatMap] at ha
  obtain ⟨s, _, ha⟩ := ha
  unfold extremeForSymbol at ha
  split at ha
  · exact absurd ha (by simp)
  · rw [List.mem_flatMap] at ha
    obtain ⟨m, _, ha⟩ := ha
    exact tag_of_mem_extremeForMetric _ _ _ _ _ _ ha

/-- Every anomaly the revenue-vs-earnings rule emits is a business-rule
    violation. -/
theorem tag_of_mem_revVsEarnings (revField : FinRow → Option ℚ)
    (rows : List FinRow) (a : Anomaly)
    (ha : a ∈ revVsEarningsAnomalies revField rows) :
    a.tag = ATag.business_rule_violation := by
  unfold revVsEarningsAnomalies at ha
  rw [List.mem_filterMap] at ha
  obtain ⟨r, _, hfa⟩ := ha
  split at hfa
  · split at hfa
    · injection hfa with h2
      subst h2
      rfl
    · exact absurd hfa (by simp)
  · exact absurd hfa (by simp)

/-- C10. In both the annual and the quarterly validator, a frame of at most 10
    rows can never produce an identity_violation, data_missing, or
    ratio_out_of_range anomaly: the identity and ratio checks sit behind the
    `len(data) > 10` guard, and every other emission site carries another tag. -/
theorem claim_c10_small_dataset_guard :
    (∀ (cols : Cols) (lookup : String → Option Int) (rows : List FinRow),
      rows.length ≤ 10 → ∀ a ∈ validateFinancialAnnual cols lookup rows,
        a.tag ≠ ATag.identity_violation ∧ a.tag ≠ ATag.data_missing
          ∧ a.tag ≠ ATag.ratio_out_of_range)
    ∧ (∀ (cols : Cols) (lookup : String → Option Int) (rows : List FinRow),
      rows.length ≤ 10 → ∀ a ∈ validateFinancialQuarterly cols lookup rows,
        a.tag ≠ ATag.identity_violation ∧ a.tag ≠ ATag.data_missing
          ∧ a.tag ≠ ATag.ratio_out_of_range) := by
  constructor
  · intro cols lookup rows hlen a ha
    unfold validateFinancialAnnual at ha
    split at ha
    · rw [List.mem_singleton] at ha
      subst ha
      exact ⟨by decide, by decide, by decide⟩
    · rw [if_neg (by omega)] at ha
      rw [List.append_nil, List.mem_append] at ha
      rcases ha with ha | ha
      · have ht := tag_of_mem_extremeAnomaliesFor _ _ _ _ _ _ _ ha
        rw [ht]
        exact ⟨by decide, by decide, by decide⟩
      · have ht := tag_of_mem_revVsEarnings _ _ _ ha
        rw [ht]
        exact ⟨by decide, by decide, by decide⟩
  · intro cols lookup rows hlen a ha
    unfold validateFinancialQuarterly at ha
    split at ha
    · rw [List.mem_singleton] at ha
      subst ha
      exact ⟨by decide, by decide, by decide⟩
    · rw [if_neg (by omega)] at ha
      rw [List.append_nil, List.mem_append] at ha
      rcases ha with ha | ha
      · have ht := tag_of_mem_extremeAnomaliesFor _ _ _ _ _ _ _ ha
        rw [ht]
        exact ⟨by decide, by decide, by decide⟩
      · have ht := tag_of_mem_revVsEarnings _ _ _ ha
        rw [ht]
        exact ⟨by decide, by decide, by decide⟩

/-- C10 witness: the guard applied to a one-row annual frame whose single
    emitted anomaly is the revenue-vs-earnings business-rule violation. -/
theorem claim_c10_witness :
    (mkAnom ATag.business_rule_violation Severity.error (some "TEST.JK") none
        none).tag ≠ ATag.identity_violation
    ∧ (mkAnom ATag.business_rule_violation Severity.error (some "TEST.JK") none
        none).tag ≠ ATag.data_missing
    ∧ (mkAnom ATag.business_rule_violation Severity.error (some "TEST.JK") none
        none).tag ≠ ATag.ratio_out_of_range :=
  claim_c10_small_dataset_guard.1 colsAll (fun _ => none) [c10row] (by decide) _
    (by decide)

/-- The adjacent-pair high scan finds nothing exactly when the available highs
    ascend along the hierarchy. -/
theorem hiViolations_eq_zero_iff (l : List ℚ) :
    hiViolations l = 0 ↔ l.Chain' (· ≤ ·) := by
  induction l with
  | nil => simp [hiViolations]
  | cons a t ih =>
    cases t with
    | nil => simp [hiViolations]
    | cons b t2 =>
      rw [List.chain'_cons]
      unfold hiViolations
      by_cases h : b < a
      · rw [if_pos h]
        constructor
        · intro hc
          omega
        · intro hc
          exact absurd hc.1 (not_le.2 h)
      · rw [if_neg h, Nat.zero_add, ih]
        constructor
        · intro hc
          exact ⟨not_lt.1 h, hc⟩
        · intro hc
          exact hc.2

/-- The adjacent-pair low scan finds nothing exactly when the available lows
    descend along the hierarchy. -/
theorem loViolations_eq_zero_iff (l : List ℚ) :
    loViolations l = 0 ↔ l.Chain' (· ≥ ·) := by
  induction l with
  | nil => simp [loViolations]
  | cons a t ih =>
    cases t with
    | nil => simp [loViolations]
    | cons b t2 =>
      rw [List.chain'_cons]
      unfold loViolations
      by_cases h : a < b
      · rw [if_pos h]
        constructor
        · intro hc
          omega
        · intro hc
          exact absurd hc.1 (not_le.2 h)
      · rw [if_neg h, Nat.zero_add, ih]
        constructor
        · intro hc
          exact ⟨not_lt.1 h, hc⟩
        · intro hc
          exact hc.2

/-- C7. With no per-symbol daily data to cross-check, the all-time-price check
    emits its (single) hierarchy anomaly for a symbol exactly when that symbol
    occurs in the frame and its recorded highs fail to ascend, or its recorded
    lows fail to descend, along the fixed 90d/ytd/52w/all-time bucket order; on
    the concrete frame holding only 90d-high = 100 and ytd-high = 90 the output
    is exactly one hierarchy-violation anomaly for that symbol. -/
theorem claim_c7_price_hierarchy :
    (∀ (today s90 s52 sytd : Int) (daily : String → List DailyRow)
        (rows : List PriceRow) (s : String), daily s = [] →
      (mkAnom ATag.price_data_inconsistency Severity.error (some s) none none ∈
          validateAllTimePrice today s90 s52 sytd daily true rows ↔
        s ∈ (rows.map (fun r => r.symbol)).eraseDups ∧
          ¬((highsList (bucketsOf rows s)).Chain' (· ≤ ·) ∧
            (lowsList (bucketsOf rows s)).Chain' (· ≥ ·))))
    ∧ validateAllTimePrice 0 0 0 0 (fun _ => []) true c7rows =
        [mkAnom ATag.price_data_inconsistency Severity.error (some "AAAA.JK")
          none none] := by
  refine ⟨?_, by decide⟩
  intro today s90 s52 sytd daily rows s hds
  have hdc : dailyIssueCount today s90 s52 sytd (daily s) (bucketsOf rows s) = 0 := by
    rw [hds]
    rfl
  have hcount : ∀ s' : String, s' = s →
      (symbolIssueCount today s90 s52 sytd daily rows s' = 0 ↔
        (highsList (bucketsOf rows s)).Chain' (· ≤ ·) ∧
          (lowsList (bucketsOf rows s)).Chain' (· ≥ ·)) := by
    intro s' hss
    subst hss
    unfold symbolIssueCount
    rw [hdc, Nat.zero_add]
    constructor
    · intro h0
      have hh : hiViolations (highsList (bucketsOf rows s')) = 0 := by omega
      have hl : loViolations (lowsList (bucketsOf rows s')) = 0 := by omega
      exact ⟨(hiViolations_eq_zero_iff _).1 hh, (loViolations_eq_zero_iff _).1 hl⟩
    · intro hc
      rw [(hiViolations_eq_zero_iff _).2 hc.1, (loViolations_eq_zero_iff _).2 hc.2]
  constructor
  · intro hmem
    unfold validateAllTimePrice at hmem
    rw [if_neg (by simp)] at hmem
    rw [List.mem_filterMap] at hmem
    obtain ⟨s', hs', heq⟩ := hmem
    by_cases hc : symbolIssueCount today s90 s52 sytd daily rows s' = 0
    · rw [if_pos hc] at heq
      exact absurd heq (by simp)
    · rw [if_neg hc] at heq
      have h2 := Option.some.inj heq
      have h3 := congrArg Anomaly.symbol h2
      have hss : s' = s := Option.some.inj h3
      subst hss
      exact ⟨hs', fun hcon => hc ((hcount s' rfl).2 hcon)⟩
  · intro hmem
    obtain ⟨hs, hviol⟩ := hmem
    unfold validateAllTimePrice
    rw [if_neg (by simp)]
    rw [List.mem_filterMap]
    refine ⟨s, hs, ?_⟩
    rw [if_neg (fun h0 => hviol ((hcount s rfl).1 h0))]

/-- C7 witness: the characterization applied to the concrete frame, whose
    highs list [100, 90] breaks the ascending hierarchy. -/
theorem claim_c7_witness :
    mkAnom ATag.price_data_inconsistency Severity.error (some "AAAA.JK") none
        none ∈ validateAllTimePrice 0 0 0 0 (fun _ => []) true c7rows :=
  (claim_c7_price_hierarchy.1 0 0 0 0 (fun _ => []) c7rows "AAAA.JK" rfl).mpr
    ⟨by decide, by
      intro hcon
      have h2 : highsList (bucketsOf c7rows "AAAA.JK") = [100, 90] := by decide
      have h1 := hcon.1
      rw [h2, List.chain'_cons] at h1
      exact absurd h1.1 (by decide)⟩
end MainTheorems
